import Mathlib

/-!
Verification of the arcgis-map-ipywidget widget sources against its
natural-language specification.  The JavaScript sources are shallowly
embedded: promise-returning functions become `Except`-valued functions,
vendor-library calls (module loading, renderer inference, layer loading)
become explicit outcome parameters, and widget/model state becomes
explicit record state threaded through the handlers.
-/

deriving instance DecidableEq for Except

namespace ArcGISMapWidget

/-! ## Layer type-inference dispatcher
Embedding of `layer-utils/infer-no-type-layer.js`. -/

/-- The fields of an untyped layer descriptor that `inferNoTypeLayer`
inspects. `type` is `none` when the JS object has no `type` key;
`hasRenderer` is the `"renderer" in noTypeLayer` test of the GeoJSON
branch; `optionsRenderer` is the effective `lyr_options.renderer` of the
FeatureLayer branch (the options object, or the descriptor itself when
`options` is null); `hasFeatureSet` is the `'featureSet' in noTypeLayer`
structural fallback test. -/
structure NoTypeLayer where
  type : Option String := none
  url : String := ""
  _hashFromPython : String := ""
  capabilities : Option String := none
  hasRenderer : Bool := false
  optionsRenderer : Option String := none
  hasFeatureSet : Bool := false
  deriving DecidableEq, Repr

/-- The constructor kinds the dispatcher can pick (one per vendor layer
class constructed in `infer-no-type-layer.js`). -/
inductive LayerKind where
  | imageryLayer
  | imageryTileLayer
  | kmlLayer
  | tileLayer
  | mapImageLayer
  | vectorTileLayer
  | wmsLayer
  | wmtsLayer
  | geoRSSLayer
  | geoJSONLayer
  | csvLayer
  | sceneLayer
  | pointCloudLayer
  | integratedMeshLayer
  | buildingSceneLayer
  | featureLayer
  deriving DecidableEq, Repr

/-- The resolved handler: the constructed (vendor) layer as observable by
the caller — its constructor kind, the `id` field the dispatcher assigns
(`typedLayer.id = noTypeLayer._hashFromPython`) and the renderer, when one
was inferred and attached. -/
structure TypedLayer where
  kind : LayerKind
  id : String
  renderer : Option String := none
  deriving DecidableEq, Repr

/-- Outcomes of the asynchronous vendor calls `inferNoTypeLayer` performs:
`esriLoader.loadModules`, `inferRenderer`, and `FeatureLayer.load`.
The dispatcher itself is deterministic given these outcomes. -/
structure ExtCalls where
  loadModules : Except String Unit
  inferRenderer : Except String String
  featureLayerLoad : Except String Unit
  deriving DecidableEq, Repr

/-- Embedding of `inferNoTypeLayer` (infer-no-type-layer.js, lines 17-320):
match `noTypeLayer.type` against the known tags in source order, construct
the corresponding layer with `id := _hashFromPython`, fall back to the
FeatureCollection path when a `featureSet` field is present, and otherwise
reject with the unsupported-type message. -/
def inferNoTypeLayer (noTypeLayer : NoTypeLayer) (ext : ExtCalls) :
    Except String TypedLayer :=
  match ext.loadModules with
  | .error err => .error err
  | .ok () =>
    if noTypeLayer.type = some "ImageryLayer" then
      if noTypeLayer.capabilities = some "tilesOnly" then
        .ok { kind := .imageryTileLayer, id := noTypeLayer._hashFromPython }
      else
        .ok { kind := .imageryLayer, id := noTypeLayer._hashFromPython }
    else if noTypeLayer.type = some "KMLLayer" ∨ noTypeLayer.type = some "KML" then
      .ok { kind := .kmlLayer, id := noTypeLayer._hashFromPython }
    else if noTypeLayer.type = some "ArcGISTiledMapServiceLayer" ∨
            noTypeLayer.type = some "TileLayer" then
      .ok { kind := .tileLayer, id := noTypeLayer._hashFromPython }
    else if noTypeLayer.type = some "ArcGISDynamicMapServiceLayer" ∨
            noTypeLayer.type = some "MapImageLayer" then
      .ok { kind := .mapImageLayer, id := noTypeLayer._hashFromPython }
    else if noTypeLayer.type = some "VectorTileLayer" then
      .ok { kind := .vectorTileLayer, id := noTypeLayer._hashFromPython }
    else if noTypeLayer.type = some "WMS" then
      .ok { kind := .wmsLayer, id := noTypeLayer._hashFromPython }
    else if noTypeLayer.type = some "WebTiledLayer" then
      .ok { kind := .wmtsLayer, id := noTypeLayer._hashFromPython }
    else if noTypeLayer.type = some "GeoRSS" then
      .ok { kind := .geoRSSLayer, id := noTypeLayer._hashFromPython }
    else if noTypeLayer.type = some "GeoJSON" then
      if noTypeLayer.hasRenderer then
        match ext.inferRenderer with
        | .ok r =>
          .ok { kind := .geoJSONLayer, id := noTypeLayer._hashFromPython,
                renderer := some r }
        | .error _ =>
          .ok { kind := .geoJSONLayer, id := noTypeLayer._hashFromPython }
      else
        .ok { kind := .geoJSONLayer, id := noTypeLayer._hashFromPython }
    else if noTypeLayer.type = some "CSV" then
      match ext.inferRenderer with
      | .ok r =>
        .ok { kind := .csvLayer, id := noTypeLayer._hashFromPython,
              renderer := some r }
      | .error _ =>
        .ok { kind := .csvLayer, id := noTypeLayer._hashFromPython }
    else if noTypeLayer.type = some "SceneLayer" then
      .ok { kind := .sceneLayer, id := noTypeLayer._hashFromPython }
    else if noTypeLayer.type = some "PointCloudLayer" then
      .ok { kind := .pointCloudLayer, id := noTypeLayer._hashFromPython }
    else if noTypeLayer.type = some "IntegratedMeshLayer" then
      .ok { kind := .integratedMeshLayer, id := noTypeLayer._hashFromPython }
    else if noTypeLayer.type = some "BuildingSceneLayer" then
      .ok { kind := .buildingSceneLayer, id := noTypeLayer._hashFromPython }
    else if noTypeLayer.type = some "FeatureLayer" ∨
            noTypeLayer.type = some "Feature Layer" then
      match ext.featureLayerLoad with
      | .error err => .error err
      | .ok () =>
        match noTypeLayer.optionsRenderer with
        | none => .ok { kind := .featureLayer, id := noTypeLayer._hashFromPython }
        | some _ =>
          match ext.inferRenderer with
          | .ok r =>
            .ok { kind := .featureLayer, id := noTypeLayer._hashFromPython,
                  renderer := some r }
          | .error err => .error err
    else if noTypeLayer.hasFeatureSet then
      match ext.inferRenderer with
      | .ok r =>
        .ok { kind := .featureLayer, id := noTypeLayer._hashFromPython,
              renderer := some r }
      | .error err => .error err
    else
      .error "This layer type is not supported."

/-- The ordered set of type tags `inferNoTypeLayer` compares against
(every string literal compared with `noTypeLayer.type`). -/
def knownLayerTypeTags : List String :=
  ["ImageryLayer", "KMLLayer", "KML", "ArcGISTiledMapServiceLayer",
   "TileLayer", "ArcGISDynamicMapServiceLayer", "MapImageLayer",
   "VectorTileLayer", "WMS", "WebTiledLayer", "GeoRSS", "GeoJSON", "CSV",
   "SceneLayer", "PointCloudLayer", "IntegratedMeshLayer",
   "BuildingSceneLayer", "FeatureLayer", "Feature Layer"]

/-- Helper predicate for C4: every successful resolution of `r` carries
the correlation id `hash`. -/
def idOk (hash : String) (r : Except String TypedLayer) : Prop :=
  ∀ tl, r = .ok tl → tl.id = hash

/-! ## Portal authentication
Embedding of `authenticate_to_portal`, `get_portal_token` and
`portal_token_changed` (arcgis-map-ipywidget-view.js, lines 1129-1244). -/

/-- A vendor `Portal` object as observable by the widget: `instanceId`
numbers each `new Portal(...)` construction (object identity), `loaded`
is the vendor `loaded` flag that `load()` sets on success. -/
structure Portal where
  instanceId : Nat
  loaded : Bool
  deriving DecidableEq, Repr

/-- The model attributes `authenticate_to_portal` and `get_portal_token`
read (defaults as in arcgis-map-ipywidget-model.js). -/
structure AuthModel where
  _auth_mode : String := ""
  _portal_url : String := ""
  _portal_sharing_rest_url : String := ""
  _portal_token : String := ""
  _username : String := ""
  deriving DecidableEq, Repr

/-- The widget-instance state `authenticate_to_portal` touches:
`portal` is `this._portal` (`none` when the field was never assigned),
`portalToken` is `this._portalToken`, `globalTokenLookup` the module-level
uuid→token table, `nextInstanceId` the supply of fresh `Portal` object
identities, and `registeredServers`/`registeredTokens` record the
`IdentityManager.registerServers`/`registerToken` calls made so far. -/
structure WidgetAuthState where
  portal : Option Portal := none
  portalToken : Option String := none
  uuid : String := ""
  globalTokenLookup : List (String × String) := []
  nextInstanceId : Nat := 0
  registeredServers : List String := []
  registeredTokens : List (String × String) := []
  deriving DecidableEq, Repr

/-- Embedding of `get_portal_token` (view.js, lines 1145-1156): prefer the
truthy `this._portalToken`, then the global lookup entry for this uuid,
then the model value. -/
def get_portal_token (s : WidgetAuthState) (m : AuthModel) : String :=
  let fallback :=
    match s.globalTokenLookup.lookup s.uuid with
    | some t => t
    | none => m._portal_token
  match s.portalToken with
  | some t => if t = "" then fallback else t
  | none => fallback

/-- The string JavaScript produces for `"..." + this._portalToken` in the
validation reject message (an unset field prints as `undefined`). -/
def portalTokenString (s : WidgetAuthState) : String :=
  match s.portalToken with
  | some t => t
  | none => "undefined"

/-- Model of the JavaScript `String.prototype.toLowerCase()` used on
`_auth_mode` (structural recursion over the character list, so that it
evaluates by kernel reduction; agrees with lower-casing for the ASCII mode
strings involved). -/
def jsToLowerCase (s : String) : String :=
  ⟨s.data.map Char.toLower⟩

/-- The token-mode validation reject message of view.js lines 1195-1198. -/
def validationRejectMsg (s : WidgetAuthState) (m : AuthModel) : String :=
  "_portal_url, _portal_sharing_rest_url, and _portal_token " ++
    ("must be specified to authenticate in 'tokenBased' auth mode. " ++
      ("_portal_url = " ++ m._portal_url ++ ", _portal_sharing_rest_url = " ++
        m._portal_sharing_rest_url ++ ", _portal_token = " ++
        portalTokenString s))

/-- The reject message for an unrecognized `_auth_mode` (lines 1238-1239). -/
def badAuthModeMsg : String :=
  "You must specify the '_auth_mode' model variable to " ++
    "either 'anonymous', 'tokenbased', or 'prompt'"

/-- What one call to `authenticate_to_portal` does synchronously:
`resolvedCached p` — resolved immediately with the already-loaded cached
portal; `pendingLoad p` — constructed a fresh `Portal` object `p` and
issued its `load()` (one underlying authentication request), the caller's
promise now awaits it; `rejected msg` — rejected without constructing a
portal. -/
inductive AuthOutcome where
  | resolvedCached (p : Portal)
  | pendingLoad (p : Portal)
  | rejected (msg : String)
  deriving DecidableEq, Repr

/-- True exactly when the call issued a new underlying
Portal-construction-and-load request. -/
def issuedRequest : AuthOutcome → Bool
  | .pendingLoad _ => true
  | _ => false

/-- The `_auth_mode` dispatch chain of `authenticate_to_portal` (view.js,
lines 1177-1240), reached when no loaded cached portal exists: dispatch on
the lower-cased `_auth_mode`, validating the three token-mode fields
before any portal construction or token registration.  Each
`new Portal(...)` takes the next fresh instance id and starts
un-`loaded`.  The `esriConfig.portalUrl` assignment of the anonymous and
prompt branches configures the vendor library and is not modelled. -/
def authModeDispatch (s : WidgetAuthState) (m : AuthModel) :
    AuthOutcome × WidgetAuthState :=
  let mode := jsToLowerCase m._auth_mode
  if mode = "anonymous" then
    let p : Portal := { instanceId := s.nextInstanceId, loaded := false }
    (.pendingLoad p,
     { s with portal := some p, nextInstanceId := s.nextInstanceId + 1 })
  else if mode = "tokenbased" then
    let tok := get_portal_token s m
    if m._portal_url = "" ∨ m._portal_sharing_rest_url = "" ∨ tok = "" then
      (.rejected (validationRejectMsg s m), s)
    else
      let p : Portal := { instanceId := s.nextInstanceId, loaded := false }
      (.pendingLoad p,
       { s with portal := some p, nextInstanceId := s.nextInstanceId + 1,
                registeredServers :=
                  s.registeredServers ++ [m._portal_sharing_rest_url],
                registeredTokens :=
                  s.registeredTokens ++ [(m._portal_sharing_rest_url, tok)] })
  else if mode = "prompt" then
    let p : Portal := { instanceId := s.nextInstanceId, loaded := false }
    (.pendingLoad p,
     { s with portal := some p, nextInstanceId := s.nextInstanceId + 1 })
  else
    (.rejected badAuthModeMsg, s)

/-- Embedding of `authenticate_to_portal` (view.js, lines 1158-1244), the
synchronous phase of one call: after the vendor modules load, resolve the
cached `this._portal` only if it exists and is already `loaded`; in every
other case (including a construction still pending, i.e. not yet loaded)
fall through to the `_auth_mode` dispatch chain. -/
def authenticate_to_portal (s : WidgetAuthState) (m : AuthModel)
    (loadModules : Except String Unit) : AuthOutcome × WidgetAuthState :=
  match loadModules with
  | .error err => (.rejected err, s)
  | .ok () =>
    match s.portal with
    | some p => if p.loaded then (.resolvedCached p, s) else authModeDispatch s m
    | none => authModeDispatch s m

/-! ## Error reporting sink
Embedding of `_displayErrorBox` (arcgis-map-ipywidget-view.js, lines
205-233). -/

/-- Observable state of the error sink: the message-box content
(`elements.errorTextBox.textContent`, empty string when nothing is
displayed) and the browser-console diagnostic log (the sequence of
`console.warn` lines the function emits). -/
structure ErrorBoxState where
  textContent : String := ""
  consoleLog : List String := []
  deriving DecidableEq, Repr

/-- Modelled from the spec: `displayPureJSErrorBox`
(elements/display-purejs-error-box.js is not among the sources) — the
"single shared display surface" that shows the given message in the
message box, replacing whatever content was there. -/
def displayPureJSErrorBox (msg : String) (s : ErrorBoxState) : ErrorBoxState :=
  { s with textContent := msg }

/-- The generic notice shown when a message is already displayed
(view.js, lines 224-225). -/
def multipleMessagesInfo : String :=
  "Multiple messages attempted to " ++
    "display. See browser console to view all messages"

/-- The pointer appended to a caller message when `browser_console_message`
is set (view.js, line 211). -/
def consolePointerMsg : String := " See the browser console for more info."

/-- The fallback text used when the caller passes no (or a falsy)
message (view.js, line 208). -/
def unhandledErrorMsg : String :=
  "Unhandled Error! See the browser console for more info."

/-- Embedding of `_displayErrorBox(msg, browser_console_message = true)`:
normalize the message (fallback for falsy, otherwise append the console
pointer when the flag is set), then either show it (no message displayed)
or replace the display with the generic multiple-messages notice, writing
the previously displayed message (unless it is already the generic
notice) and the new message to the console log. -/
def _displayErrorBox (msg : Option String) (browser_console_message : Bool)
    (s : ErrorBoxState) : ErrorBoxState :=
  let m :=
    match msg with
    | none => unhandledErrorMsg
    | some m0 =>
      if m0 = "" then unhandledErrorMsg
      else if browser_console_message then m0 ++ consolePointerMsg
      else m0
  if s.textContent = "" then
    displayPureJSErrorBox m s
  else
    let s1 :=
      if s.textContent ≠ multipleMessagesInfo then
        { s with consoleLog :=
            s.consoleLog ++ ["*****MESSAGE_BOX: " ++ s.textContent] }
      else s
    let s2 := { s1 with consoleLog :=
        s1.consoleLog ++ ["*****MESSAGE_BOX: " ++ m] }
    displayPureJSErrorBox multipleMessagesInfo s2

/-! ## Sentinel-guarded zoom/scale handlers
Embedding of `zoom_changed` and `scale_changed`
(arcgis-map-ipywidget-view.js, lines 563-588).  JavaScript numbers are
modelled as rationals; the comparisons `zoom >= 0` and `scale >= 1` are
exact on them. -/

/-- The live view surface state the handlers may mutate. -/
structure ActiveViewState where
  zoom : ℚ := -1
  scale : ℚ := -1
  deriving DecidableEq, Repr

/-- The model attributes the two handlers read and write (defaults as in
arcgis-map-ipywidget-model.js). -/
structure DrawModel where
  _zoom : ℚ := -1
  _readonly_zoom : ℚ := -1
  _scale : ℚ := -1
  _readonly_scale : ℚ := -1
  deriving DecidableEq, Repr

/-- Combined widget state for the zoom/scale handlers: the model, the
active view surface, the number of `model.save_changes()` commits made,
and the error-box messages displayed. -/
structure DrawState where
  model : DrawModel := {}
  activeView : ActiveViewState := {}
  savedChanges : Nat := 0
  displayedErrors : List String := []
  deriving DecidableEq, Repr

/-- Embedding of `zoom_changed`: read `_zoom`, echo it into
`_readonly_zoom`, forward it to the view only when `zoom >= 0`, then
commit.  No error path is taken (the catch only guards vendor throws). -/
def zoom_changed (s : DrawState) : DrawState :=
  let zoom := s.model._zoom
  let s := { s with model := { s.model with _readonly_zoom := zoom } }
  let s :=
    if zoom ≥ 0 then { s with activeView := { s.activeView with zoom := zoom } }
    else s
  { s with savedChanges := s.savedChanges + 1 }

/-- Embedding of `scale_changed`: read `_scale`, echo it into
`_readonly_scale`, commit, and forward to the view only when
`scale >= 1`. -/
def scale_changed (s : DrawState) : DrawState :=
  let scale := s.model._scale
  let s := { s with model := { s.model with _readonly_scale := scale } }
  let s := { s with savedChanges := s.savedChanges + 1 }
  if scale ≥ 1 then { s with activeView := { s.activeView with scale := scale } }
  else s

/-! ## Read-only attributes and the stationary callbacks
Embedding of the `render` change-handler registrations (view.js, lines
93-145) and of `_2dStationaryCallback` / `_3dStationaryCallback` /
`_commonStationaryCallback` (view.js, lines 290-344). -/

/-- The attributes a `this.model.on('change:...')` handler is registered
for in `render` (view.js, lines 93-145), in registration order. -/
def registeredChangeHandlerAttrs : List String :=
  ["mode", "_basemap", "_zoom", "_scale", "_snap_to_zoom", "_rotation",
   "_link_writeonly_rotation", "_heading", "_link_writeonly_heading",
   "_tilt", "_link_writeonly_tilt", "_extent", "_link_writeonly_extent",
   "_center", "_center_long_lat", "_func_chains", "_add_this_notype_layer",
   "_layers_to_remove", "_add_this_graphic", "_webmap", "_webscene",
   "_trigger_webscene_save_to_this_portal_id",
   "_trigger_screenshot_with_args", "_overlay_this_image",
   "_image_overlays_to_remove", "time_slider", "time_mode", "_time_info",
   "_writeonly_start_time", "_writeonly_end_time", "_portal_token",
   "_custom_msg", "hide_mode_switch", "_trigger_interactive_draw_mode_for",
   "_trigger_new_jlab_window_with_args", "_js_cdn_override", "legend",
   "_trigger_print_js_debug_info"]

/-- Every model attribute declared in the widget model's `defaults`
(arcgis-map-ipywidget-model.js, lines 10-104). -/
def modelAttributeNames : List String :=
  ["_model_name", "_view_name", "_model_module", "_view_module",
   "_model_module_version", "_view_module_version", "value", "_basemap",
   "_gallery_basemaps", "mode", "_zoom", "_readonly_zoom", "_scale",
   "_snap_to_zoom", "_readonly_scale", "_rotation", "_readonly_rotation",
   "_link_writeonly_rotation", "_heading", "_readonly_heading",
   "_link_writeonly_heading", "_tilt", "_readonly_tilt",
   "_link_writeonly_tilt", "_extent", "_readonly_extent",
   "_link_writeonly_extent", "_center", "_readonly_center",
   "_center_long_lat", "_func_chains", "_add_this_notype_layer",
   "_readonly_notype_layers", "_draw_these_notype_layers_on_widget_load",
   "_layers_to_remove", "_add_this_graphic",
   "_draw_these_graphics_on_widget_load", "_webmap", "_webscene",
   "_trigger_webscene_save_to_this_portal_id", "_readonly_webmap_from_js",
   "_preview_screenshot_callback_resp",
   "_cell_output_screenshot_callback_resp",
   "_file_output_screenshot_callback_resp", "_trigger_screenshot_with_args",
   "_overlay_this_image", "_overlay_these_images_on_widget_load",
   "_image_overlays_to_remove", "time_slider", "time_mode", "_time_info",
   "_writeonly_start_time", "_readonly_start_time", "_writeonly_end_time",
   "_readonly_end_time", "_portal_token", "_auth_mode", "_portal_url",
   "_portal_sharing_rest_url", "_username", "_custom_msg",
   "hide_mode_switch", "_trigger_interactive_draw_mode_for",
   "_trigger_new_jlab_window_with_args", "jupyter_target", "ready",
   "tab_mode", "_js_cdn_override", "legend", "_uuid",
   "_trigger_print_js_debug_info"]

/-- True for attribute names of the read-only naming convention
(`_readonly_*`). -/
def isReadonlyAttr (a : String) : Bool :=
  "_readonly_".data.isPrefixOf a.data

/-- The live-view values the stationary callbacks read: the 2D rotation,
the 3D camera (heading and tilt; `none` when the camera is not ready),
and the active view's zoom, scale, center and extent (the last two only
matter through their truthiness). -/
structure StationaryViewReadings where
  rotation : ℚ := 0
  camera : Option (ℚ × ℚ) := none
  zoom : ℚ := -1
  scale : ℚ := 0
  hasCenter : Bool := false
  hasExtent : Bool := false
  deriving DecidableEq, Repr

/-- One observable action of a stationary callback on the widget:
a `model.set(attr, ...)`, a `model.save_changes()`, or a direct write to
the view surface (`apply_heading_to_view` / `apply_rotation_to_view`). -/
inductive ModelOp where
  | setAttr (attr : String)
  | saveChanges
  | applyToView (prop : String)
  deriving DecidableEq, Repr

/-- The action sequence of `_commonStationaryCallback` (view.js, lines
321-344): guarded `_readonly_zoom` / `_readonly_scale` / `_readonly_center`
/ `_readonly_extent` sets followed by one `save_changes`. -/
def _commonStationaryCallbackOps (v : StationaryViewReadings) :
    List ModelOp :=
  (if v.zoom ≥ 0 then [.setAttr "_readonly_zoom"] else []) ++
    ((if v.scale ≥ 1 then [.setAttr "_readonly_scale"] else []) ++
      ((if v.hasCenter then [.setAttr "_readonly_center"] else []) ++
        ((if v.hasExtent then [.setAttr "_readonly_extent"] else []) ++
          [.saveChanges])))

/-- The action sequence of `_2dStationaryCallback` (view.js, lines
290-303): rotation-guarded `_readonly_rotation` / `_readonly_heading` sets
plus the heading surface write, then the common callback. -/
def _2dStationaryCallbackOps (v : StationaryViewReadings) : List ModelOp :=
  (if v.rotation ≥ 0 then
    [.setAttr "_readonly_rotation", .setAttr "_readonly_heading",
     .applyToView "heading"]
   else []) ++ _commonStationaryCallbackOps v

/-- The action sequence of `_3dStationaryCallback` (view.js, lines
305-319): camera-guarded `_readonly_heading` / `_readonly_rotation` /
`_readonly_tilt` sets plus the rotation surface write, then the common
callback. -/
def _3dStationaryCallbackOps (v : StationaryViewReadings) : List ModelOp :=
  (match v.camera with
   | some _ =>
     [.setAttr "_readonly_heading", .setAttr "_readonly_rotation",
      .applyToView "rotation", .setAttr "_readonly_tilt"]
   | none => []) ++ _commonStationaryCallbackOps v

/-- The store as the host widget framework sees it: attributes set but not
yet committed, attributes committed by `save_changes`, and the
change-handler invocations the sets triggered (a `model.set(a, ...)`
fires the handlers registered for `a`). -/
structure ModelStore where
  uncommitted : List String := []
  committed : List String := []
  handlersFired : List String := []
  deriving DecidableEq, Repr

/-- Run a stationary-callback action sequence against the store. -/
def runModelOps : List ModelOp → ModelStore → ModelStore
  | [], st => st
  | .setAttr a :: rest, st =>
    runModelOps rest
      { st with uncommitted := st.uncommitted ++ [a],
                handlersFired := st.handlersFired ++
                  (if a ∈ registeredChangeHandlerAttrs then [a] else []) }
  | .saveChanges :: rest, st =>
    runModelOps rest
      { st with committed := st.committed ++ st.uncommitted,
                uncommitted := [] }
  | .applyToView _ :: rest, st => runModelOps rest st

/-- The attributes an action sequence sets (in order). -/
def opsSets : List ModelOp → List String
  | [] => []
  | .setAttr a :: rest => a :: opsSets rest
  | .saveChanges :: rest => opsSets rest
  | .applyToView _ :: rest => opsSets rest

/-- The attribute names the stationary callbacks can ever set. -/
def stationaryWritableAttrs : List String :=
  ["_readonly_rotation", "_readonly_heading", "_readonly_tilt",
   "_readonly_zoom", "_readonly_scale", "_readonly_center",
   "_readonly_extent"]

/-! ## Layer removal loop
Embedding of `layers_to_remove_changed` (arcgis-map-ipywidget-view.js,
lines 957-976) over the vendor map layer collection. -/

/-- A layer on the map as relevant to removal: its `id` and a tag that
distinguishes object instances sharing an id. -/
structure MapLayer where
  id : String
  tag : Nat := 0
  deriving DecidableEq, Repr

/-- The vendor `map.findLayerById`: the first layer bearing the id. -/
def findLayerById (layers : List MapLayer) (lid : String) : Option MapLayer :=
  layers.find? (fun l => l.id == lid)

/-- The vendor `map.remove` applied to the layer `findLayerById` returned:
removes that (first-matching) instance. -/
def removeFirstById : List MapLayer → String → List MapLayer
  | [], _ => []
  | l :: rest, lid => if l.id == lid then rest else l :: removeFirstById rest lid

theorem length_removeFirstById_lt (layers : List MapLayer) (lid : String)
    (l : MapLayer) (h : findLayerById layers lid = some l) :
    (removeFirstById layers lid).length < layers.length := by
  induction layers with
  | nil => exact absurd h (by simp [findLayerById])
  | cons x rest ih =>
    by_cases hx : (x.id == lid) = true
    · simp [removeFirstById, hx]
    · have hx' : (x.id == lid) = false := by simpa using hx
      rw [findLayerById, List.find?, hx'] at h
      simp only [removeFirstById, hx', Bool.false_eq_true, if_false,
        List.length_cons]
      exact Nat.succ_lt_succ (ih h)

/-- The do-while loop body of `layers_to_remove_changed`: find a layer by
id and remove it, until `findLayerById` returns nothing. -/
def removeLayerLoop (layers : List MapLayer) (lid : String) : List MapLayer :=
  match hfind : findLayerById layers lid with
  | none => layers
  | some l =>
    have := length_removeFirstById_lt layers lid l hfind
    removeLayerLoop (removeFirstById layers lid) lid
termination_by layers.length

/-- Embedding of `layers_to_remove_changed`: run the removal loop for each
id in `_layers_to_remove` in order. -/
def layers_to_remove_changed (layers : List MapLayer)
    (layersToRemove : List String) : List MapLayer :=
  layersToRemove.foldl (fun acc lid => removeLayerLoop acc lid) layers

/-! ## Image-overlay removal
Embedding of `tryRemoveImageOverlays` (arcgis-map-ipywidget-view.js,
lines 1670-1678) over the layer-local `_imagesToOverlay` collection. -/

/-- An image overlay as relevant to removal: its `id` and an instance
tag. -/
structure ImgOverlay where
  id : String
  tag : Nat := 0
  deriving DecidableEq, Repr

/-- The `for` loop of `tryRemoveImageOverlays`: walk the collection by
index `i`; when the overlay at `i` matches, `removeAt(i)` shifts the rest
down, and `i` is incremented regardless. -/
def tryRemoveLoop (imageOverlaysToRemove : List String) (i : Nat)
    (items : List ImgOverlay) : List ImgOverlay :=
  if h : i < items.length then
    if (items.get ⟨i, h⟩).id ∈ imageOverlaysToRemove then
      tryRemoveLoop imageOverlaysToRemove (i + 1) (items.eraseIdx i)
    else
      tryRemoveLoop imageOverlaysToRemove (i + 1) items
  else items
termination_by items.length - i
decreasing_by
  · have : (items.eraseIdx i).length = items.length - 1 :=
      List.length_eraseIdx_of_lt h
    omega
  · omega

/-- Embedding of `tryRemoveImageOverlays`: the single forward pass from
index 0. -/
def tryRemoveImageOverlays (imageOverlaysToRemove : List String)
    (items : List ImgOverlay) : List ImgOverlay :=
  tryRemoveLoop imageOverlaysToRemove 0 items

/-- Structural companion of `tryRemoveLoop` (proved equal to it below):
processing the list front-to-back, a removal keeps the immediately
following element unexamined — the index skip of the source loop. -/
def tryRemoveStruct (imageOverlaysToRemove : List String) :
    List ImgOverlay → List ImgOverlay
  | [] => []
  | [o] => if o.id ∈ imageOverlaysToRemove then [] else [o]
  | o :: p :: rest2 =>
    if o.id ∈ imageOverlaysToRemove then
      p :: tryRemoveStruct imageOverlaysToRemove rest2
    else o :: tryRemoveStruct imageOverlaysToRemove (p :: rest2)

/-- True when some overlay whose id is to be removed immediately follows
another such overlay (the configuration the source loop mishandles). -/
def hasAdjacentMatches (imageOverlaysToRemove : List String) :
    List ImgOverlay → Bool
  | a :: b :: rest =>
    (decide (a.id ∈ imageOverlaysToRemove) &&
      decide (b.id ∈ imageOverlaysToRemove)) ||
      hasAdjacentMatches imageOverlaysToRemove (b :: rest)
  | _ => false

/-! ## Theorems -/

theorem idOk_ok (hash : String) (k : LayerKind) (r : Option String) :
    idOk hash (.ok { kind := k, id := hash, renderer := r }) := by
  intro tl h
  injection h with h'
  rw [← h']

theorem idOk_error (hash e : String) : idOk hash (.error e) :=
  fun _ h => Except.noConfusion h

theorem idOk_ite (hash : String) (c : Prop) [Decidable c]
    (a b : Except String TypedLayer) (ha : idOk hash a) (hb : idOk hash b) :
    idOk hash (if c then a else b) := by
  by_cases h : c
  · rwa [if_pos h]
  · rwa [if_neg h]

/-- C3: a layer descriptor whose type tag matches none of the dispatcher's
known tags and which has no `featureSet` field is rejected by
`inferNoTypeLayer` with the explicit unsupported-type error — it is never
silently ignored and never resolved. -/
theorem c3_unsupported_type_rejects (d : NoTypeLayer) (ext : ExtCalls)
    (hmod : ext.loadModules = .ok ())
    (htag : ∀ t, d.type = some t → t ∉ knownLayerTypeTags)
    (hfs : d.hasFeatureSet = false) :
    inferNoTypeLayer d ext = .error "This layer type is not supported." := by
  cases hdt : d.type with
  | none => simp [inferNoTypeLayer, hmod, hdt, hfs]
  | some t =>
    have ht := htag t hdt
    simp only [knownLayerTypeTags, List.mem_cons, List.not_mem_nil, or_false,
      not_or] at ht
    obtain ⟨h1, h2, h3, h4, h5, h6, h7, h8, h9, h10, h11, h12, h13, h14, h15,
      h16, h17, h18, h19⟩ := ht
    simp [inferNoTypeLayer, hmod, hdt, hfs, h1, h2, h3, h4, h5, h6, h7, h8,
      h9, h10, h11, h12, h13, h14, h15, h16, h17, h18, h19]

/-- Witness for C3: a descriptor with the unrecognized tag `FooLayer` and
no `featureSet` is rejected with the unsupported-type error. -/
theorem c3_witness :
    inferNoTypeLayer { type := some "FooLayer" }
      { loadModules := .ok (), inferRenderer := .ok "r",
        featureLayerLoad := .ok () } =
      .error "This layer type is not supported." :=
  c3_unsupported_type_rejects _ _ rfl
    (fun t ht => by
      have h : t = "FooLayer" := by injection ht with h; exact h.symm
      subst h; decide)
    rfl

set_option maxHeartbeats 1000000 in
/-- C4: every handler `inferNoTypeLayer` resolves carries
`id = _hashFromPython` (the descriptor's correlation identifier), whatever
branch matched; and a descriptor with `type = "TileLayer"` resolves to a
`TileLayer`-kind handler so tagged, never rejected for a missing renderer. -/
theorem c4_resolved_id_correlation (d : NoTypeLayer) (ext : ExtCalls) :
    (∀ tl, inferNoTypeLayer d ext = .ok tl → tl.id = d._hashFromPython) ∧
    (ext.loadModules = .ok () → d.type = some "TileLayer" →
      inferNoTypeLayer d ext =
        .ok { kind := .tileLayer, id := d._hashFromPython }) := by
  constructor
  · show idOk d._hashFromPython (inferNoTypeLayer d ext)
    obtain ⟨dt, durl, dh, dcap, dhr, dor, dfs⟩ := d
    obtain ⟨ml, ir, fl⟩ := ext
    cases ml with
    | error e => exact idOk_error _ e
    | ok u =>
      cases u
      cases ir <;> cases fl <;> cases dor <;>
        (repeat
          first
            | apply idOk_ite
            | exact idOk_ok _ _ _
            | exact idOk_error _ _)
  · intro hmod ht
    unfold inferNoTypeLayer
    rw [hmod, ht]
    simp

/-- Witness for C4: a `TileLayer` descriptor with correlation id `hash42`
resolves to a tile-layer handler with `id = "hash42"` even though renderer
inference would fail. -/
theorem c4_witness :
    inferNoTypeLayer
      { type := some "TileLayer", url := "https://example.com/tile",
        _hashFromPython := "hash42" }
      { loadModules := .ok (), inferRenderer := .error "no renderer",
        featureLayerLoad := .ok () } =
      .ok { kind := .tileLayer, id := "hash42" } :=
  (c4_resolved_id_correlation _ _).2 rfl rfl

theorem append_pointer_ne_empty (m : String) :
    m ++ consolePointerMsg ≠ "" := by
  intro h
  have hd := congrArg String.data h
  rw [String.data_append] at hd
  exact absurd (List.append_eq_nil.mp hd).2 (by decide)

theorem append_pointer_ne_multi (m : String) :
    m ++ consolePointerMsg ≠ multipleMessagesInfo := by
  intro h
  have hd := congrArg String.data h
  rw [String.data_append] at hd
  have hs : consolePointerMsg.data <:+ multipleMessagesInfo.data :=
    ⟨m.data, hd⟩
  exact absurd hs (by decide)

/-- Counterexample for C2: the first of two error reports is *not* shown
verbatim — `_displayErrorBox` appends the console pointer to it before
displaying (the displayed content differs from the reported message). -/
theorem c2_counterexample :
    (_displayErrorBox (some "Error while modifying zoom.") true
      {}).textContent ≠ "Error while modifying zoom." := by
  decide

/-- C2 (amended): with no message displayed, the first report is shown
with the fixed console pointer appended (and verbatim when the
`browser_console_message` flag is false); a second report replaces the
display with the generic multiple-messages notice, and both suffixed
messages — the displayed first one and the second one — are appended to
the console log. -/
theorem c2_amended_error_sink (m1 m2 : String) (s : ErrorBoxState)
    (h0 : s.textContent = "") (h1 : m1 ≠ "") (h2 : m2 ≠ "") :
    (_displayErrorBox (some m1) true s).textContent =
      m1 ++ consolePointerMsg ∧
    (_displayErrorBox (some m2) true
        (_displayErrorBox (some m1) true s)).textContent =
      multipleMessagesInfo ∧
    (_displayErrorBox (some m2) true
        (_displayErrorBox (some m1) true s)).consoleLog =
      s.consoleLog ++
        ["*****MESSAGE_BOX: " ++ (m1 ++ consolePointerMsg),
         "*****MESSAGE_BOX: " ++ (m2 ++ consolePointerMsg)] ∧
    (_displayErrorBox (some m1) false s).textContent = m1 := by
  have e1 : _displayErrorBox (some m1) true s =
      { s with textContent := m1 ++ consolePointerMsg } := by
    simp [_displayErrorBox, h0, h1, displayPureJSErrorBox]
  have e2 : _displayErrorBox (some m2) true
      { s with textContent := m1 ++ consolePointerMsg } =
      { s with textContent := multipleMessagesInfo,
               consoleLog := s.consoleLog ++
                 ["*****MESSAGE_BOX: " ++ (m1 ++ consolePointerMsg),
                  "*****MESSAGE_BOX: " ++ (m2 ++ consolePointerMsg)] } := by
    simp [_displayErrorBox, h2, displayPureJSErrorBox,
      append_pointer_ne_empty m1, append_pointer_ne_multi m1]
  refine ⟨by rw [e1], by rw [e1, e2], by rw [e1, e2], ?_⟩
  simp [_displayErrorBox, h0, h1, displayPureJSErrorBox]

/-- Witness for C2 (amended): two concrete reports while nothing is
displayed — the first shows suffixed, the second replaces the display with
the generic notice and both land in the console log. -/
theorem c2_amended_witness :
    (_displayErrorBox (some "boom") true {}).textContent =
      "boom" ++ consolePointerMsg ∧
    (_displayErrorBox (some "bang") true
        (_displayErrorBox (some "boom") true {})).textContent =
      multipleMessagesInfo ∧
    (_displayErrorBox (some "bang") true
        (_displayErrorBox (some "boom") true {})).consoleLog =
      ([] : List String) ++
        ["*****MESSAGE_BOX: " ++ ("boom" ++ consolePointerMsg),
         "*****MESSAGE_BOX: " ++ ("bang" ++ consolePointerMsg)] ∧
    (_displayErrorBox (some "boom") false {}).textContent = "boom" :=
  c2_amended_error_sink "boom" "bang" {} rfl (by decide) (by decide)

/-- C7: the sentinel values meaning "unset" are not forwarded to the
surface — when `_zoom` is negative, `zoom_changed` leaves the view's zoom
unchanged, and when `_scale` is below 1, `scale_changed` leaves the view's
scale unchanged; neither reports an error. -/
theorem c7_sentinel_guard (s : DrawState) :
    (s.model._zoom < 0 →
      (zoom_changed s).activeView.zoom = s.activeView.zoom ∧
      (zoom_changed s).displayedErrors = s.displayedErrors) ∧
    (s.model._scale < 1 →
      (scale_changed s).activeView.scale = s.activeView.scale ∧
      (scale_changed s).displayedErrors = s.displayedErrors) := by
  constructor
  · intro hz
    have : ¬ s.model._zoom ≥ 0 := not_le.mpr hz
    simp [zoom_changed, this]
  · intro hs
    have : ¬ s.model._scale ≥ 1 := not_le.mpr hs
    simp [scale_changed, this]

/-- Witness for C7: with the model's default sentinels (`_zoom = -1`,
`_scale = -1`) neither handler touches the view or reports an error. -/
theorem c7_witness :
    ((zoom_changed {}).activeView.zoom = ({} : DrawState).activeView.zoom ∧
      (zoom_changed {}).displayedErrors = ({} : DrawState).displayedErrors) ∧
    ((scale_changed {}).activeView.scale = ({} : DrawState).activeView.scale ∧
      (scale_changed {}).displayedErrors =
        ({} : DrawState).displayedErrors) :=
  ⟨(c7_sentinel_guard {}).1 (by norm_num),
   (c7_sentinel_guard {}).2 (by norm_num)⟩

theorem runModelOps_append (l1 l2 : List ModelOp) (st : ModelStore) :
    runModelOps (l1 ++ l2) st = runModelOps l2 (runModelOps l1 st) := by
  induction l1 generalizing st with
  | nil => rfl
  | cons op rest ih => cases op <;> simp [runModelOps, ih]

theorem opsSets_append (l1 l2 : List ModelOp) :
    opsSets (l1 ++ l2) = opsSets l1 ++ opsSets l2 := by
  induction l1 with
  | nil => rfl
  | cons op rest ih => cases op <;> simp [opsSets, ih]

theorem runModelOps_handlersFired (ops : List ModelOp) (st : ModelStore) :
    (runModelOps ops st).handlersFired = st.handlersFired ++
      (opsSets ops).filter
        (fun a => decide (a ∈ registeredChangeHandlerAttrs)) := by
  induction ops generalizing st with
  | nil => simp [runModelOps, opsSets]
  | cons op rest ih =>
    cases op with
    | setAttr a =>
      by_cases h : a ∈ registeredChangeHandlerAttrs <;>
        simp [runModelOps, opsSets, ih, h, List.filter]
    | saveChanges => simp [runModelOps, opsSets, ih]
    | applyToView p => simp [runModelOps, opsSets, ih]

theorem runModelOps_committed_sub (ops : List ModelOp) (st : ModelStore) :
    ∀ a ∈ (runModelOps ops st).committed,
      a ∈ st.committed ∨ a ∈ st.uncommitted ∨ a ∈ opsSets ops := by
  induction ops generalizing st with
  | nil => exact fun a ha => Or.inl ha
  | cons op rest ih =>
    cases op with
    | setAttr b =>
      intro a ha
      rcases ih _ a ha with h | h | h
      · exact Or.inl h
      · rcases List.mem_append.mp h with h | h
        · exact Or.inr (Or.inl h)
        · simp only [List.mem_singleton] at h
          exact Or.inr (Or.inr (by simp [opsSets, h]))
      · exact Or.inr (Or.inr (by simp [opsSets, h]))
    | saveChanges =>
      intro a ha
      rcases ih _ a ha with h | h | h
      · rcases List.mem_append.mp h with h | h
        · exact Or.inl h
        · exact Or.inr (Or.inl h)
      · exact absurd h (List.not_mem_nil a)
      · exact Or.inr (Or.inr (by simp [opsSets, h]))
    | applyToView p =>
      intro a ha
      rcases ih _ a ha with h | h | h
      · exact Or.inl h
      · exact Or.inr (Or.inl h)
      · exact Or.inr (Or.inr (by simp [opsSets, h]))

theorem mem_opsSets_ite {c : Prop} [Decidable c] {X : List ModelOp}
    {a : String} (h : a ∈ opsSets (if c then X else [])) : a ∈ opsSets X := by
  by_cases hc : c
  · rwa [if_pos hc] at h
  · rw [if_neg hc] at h
    exact absurd h (by simp [opsSets])

theorem opsSets_common_sub (v : StationaryViewReadings) (a : String)
    (ha : a ∈ opsSets (_commonStationaryCallbackOps v)) :
    a ∈ stationaryWritableAttrs := by
  simp only [_commonStationaryCallbackOps, opsSets_append,
    List.mem_append] at ha
  rcases ha with h | h | h | h | h
  · have := mem_opsSets_ite h
    simp only [opsSets, List.mem_singleton] at this
    simp [stationaryWritableAttrs, this]
  · have := mem_opsSets_ite h
    simp only [opsSets, List.mem_singleton] at this
    simp [stationaryWritableAttrs, this]
  · have := mem_opsSets_ite h
    simp only [opsSets, List.mem_singleton] at this
    simp [stationaryWritableAttrs, this]
  · have := mem_opsSets_ite h
    simp only [opsSets, List.mem_singleton] at this
    simp [stationaryWritableAttrs, this]
  · exact absurd h (by simp [opsSets])

theorem opsSets_2d_sub (v : StationaryViewReadings) (a : String)
    (ha : a ∈ opsSets (_2dStationaryCallbackOps v)) :
    a ∈ stationaryWritableAttrs := by
  simp only [_2dStationaryCallbackOps, opsSets_append,
    List.mem_append] at ha
  rcases ha with h | h
  · have := mem_opsSets_ite h
    simp only [opsSets, List.mem_cons, List.mem_singleton,
      List.not_mem_nil, or_false] at this
    rcases this with h' | h' <;> simp [stationaryWritableAttrs, h']
  · exact opsSets_common_sub v a h


theorem opsSets_3d_sub (v : StationaryViewReadings) (a : String)
    (ha : a ∈ opsSets (_3dStationaryCallbackOps v)) :
    a ∈ stationaryWritableAttrs := by
  simp only [_3dStationaryCallbackOps, opsSets_append,
    List.mem_append] at ha
  rcases ha with h | h
  · rcases hcam : v.camera with _ | c
    · rw [hcam] at h
      exact absurd h (by simp [opsSets])
    · rw [hcam] at h
      simp only [opsSets, List.mem_cons, List.not_mem_nil, or_false] at h
      rcases h with h' | h' | h' <;> simp [stationaryWritableAttrs, h']
  · exact opsSets_common_sub v a h

/-- C8: no `_readonly_*` model attribute has a registered change handler,
so a surface-originated write by the stationary callbacks triggers no
store-to-surface handler (no feedback loop); and every stationary-callback
run fires no handler, leaves nothing uncommitted (its writes are committed
by its final `save_changes`, within the same cycle), and commits only
`_readonly_*` attributes. -/
theorem c8_readonly_no_feedback (v : StationaryViewReadings) :
    (∀ a ∈ modelAttributeNames, isReadonlyAttr a = true →
      a ∉ registeredChangeHandlerAttrs) ∧
    (runModelOps (_2dStationaryCallbackOps v) {}).uncommitted = [] ∧
    (runModelOps (_3dStationaryCallbackOps v) {}).uncommitted = [] ∧
    (runModelOps (_2dStationaryCallbackOps v) {}).handlersFired = [] ∧
    (runModelOps (_3dStationaryCallbackOps v) {}).handlersFired = [] ∧
    (∀ a ∈ (runModelOps (_2dStationaryCallbackOps v) {}).committed,
      isReadonlyAttr a = true) ∧
    (∀ a ∈ (runModelOps (_3dStationaryCallbackOps v) {}).committed,
      isReadonlyAttr a = true) := by
  have hfe : ∀ ops : List ModelOp,
      (∀ a ∈ opsSets ops, a ∈ stationaryWritableAttrs) →
      (runModelOps ops {}).handlersFired = [] := by
    intro ops hsub
    rw [runModelOps_handlersFired]
    have hfilter : (opsSets ops).filter
        (fun a => decide (a ∈ registeredChangeHandlerAttrs)) = [] := by
      rw [List.filter_eq_nil_iff]
      intro a ha
      have h7 := hsub a ha
      fin_cases h7 <;> decide
    rw [hfilter]
    rfl
  have hco : ∀ ops : List ModelOp,
      (∀ a ∈ opsSets ops, a ∈ stationaryWritableAttrs) →
      ∀ a ∈ (runModelOps ops {}).committed, isReadonlyAttr a = true := by
    intro ops hsub a ha
    rcases runModelOps_committed_sub ops {} a ha with h | h | h
    · exact absurd h (List.not_mem_nil a)
    · exact absurd h (List.not_mem_nil a)
    · have h7 := hsub a h
      fin_cases h7 <;> decide
  refine ⟨by decide, ?_, ?_, hfe _ (opsSets_2d_sub v), hfe _ (opsSets_3d_sub v),
    hco _ (opsSets_2d_sub v), hco _ (opsSets_3d_sub v)⟩
  · rw [_2dStationaryCallbackOps, _commonStationaryCallbackOps,
      runModelOps_append, runModelOps_append, runModelOps_append,
      runModelOps_append, runModelOps_append]
    rfl
  · rw [_3dStationaryCallbackOps, _commonStationaryCallbackOps,
      runModelOps_append, runModelOps_append, runModelOps_append,
      runModelOps_append, runModelOps_append]
    rfl

/-- Witness for C8: with all guards passing (rotation 0, camera present,
zoom 2, scale 5000, center and extent present) the 2D run fires no
handler, commits everything, and `_readonly_zoom` — a model attribute of
the read-only convention — has no registered change handler. -/
theorem c8_witness :
    ("_readonly_zoom" ∉ registeredChangeHandlerAttrs) ∧
    (runModelOps
      (_2dStationaryCallbackOps
        { rotation := 0, camera := some (0, 0), zoom := 2, scale := 5000,
          hasCenter := true, hasExtent := true }) {}).handlersFired = [] ∧
    (runModelOps
      (_2dStationaryCallbackOps
        { rotation := 0, camera := some (0, 0), zoom := 2, scale := 5000,
          hasCenter := true, hasExtent := true }) {}).uncommitted = [] :=
  ⟨(c8_readonly_no_feedback {}).1 "_readonly_zoom" (by decide) (by decide),
   (c8_readonly_no_feedback
     { rotation := 0, camera := some (0, 0), zoom := 2, scale := 5000,
       hasCenter := true, hasExtent := true }).2.2.2.1,
   (c8_readonly_no_feedback
     { rotation := 0, camera := some (0, 0), zoom := 2, scale := 5000,
       hasCenter := true, hasExtent := true }).2.1⟩

/-- Counterexample for C1: `authenticate_to_portal` does not deduplicate
in-flight authentication attempts.  Starting from a fresh widget in
anonymous mode, a first call issues an underlying
Portal-construction-and-load; a second call made while that attempt is
still pending (the cached `_portal` exists but is not `loaded`) issues a
second underlying request, and the two callers' promises await different
portal objects — refuting "exactly one underlying request, all callers
resolve with the same portal object". -/
theorem c1_counterexample :
    issuedRequest
      (authenticate_to_portal {} { _auth_mode := "anonymous" } (.ok ())).1 =
      true ∧
    issuedRequest
      (authenticate_to_portal
        (authenticate_to_portal {} { _auth_mode := "anonymous" } (.ok ())).2
        { _auth_mode := "anonymous" } (.ok ())).1 = true ∧
    (authenticate_to_portal {} { _auth_mode := "anonymous" } (.ok ())).1 ≠
      (authenticate_to_portal
        (authenticate_to_portal {} { _auth_mode := "anonymous" } (.ok ())).2
        { _auth_mode := "anonymous" } (.ok ())).1 := by
  decide

/-- C1 (amended): `authenticate_to_portal` deduplicates only *completed*
attempts: when the cached portal is already loaded, a call resolves with
that same cached portal object and issues no new request; but while an
attempt is still pending (cached portal not yet loaded), a further call
(here in anonymous mode) issues its own fresh Portal
construction-and-load, distinct from the pending one. -/
theorem c1_amended_no_inflight_dedup (s : WidgetAuthState) (m : AuthModel)
    (p : Portal) (hp : s.portal = some p) :
    (p.loaded = true →
      authenticate_to_portal s m (.ok ()) = (.resolvedCached p, s)) ∧
    (p.loaded = false → jsToLowerCase m._auth_mode = "anonymous" →
      (authenticate_to_portal s m (.ok ())).1 =
        .pendingLoad { instanceId := s.nextInstanceId, loaded := false } ∧
      (p.instanceId < s.nextInstanceId →
        ({ instanceId := s.nextInstanceId, loaded := false } : Portal) ≠ p)) := by
  constructor
  · intro hl
    simp [authenticate_to_portal, hp, hl]
  · intro hl hm
    constructor
    · simp [authenticate_to_portal, hp, hl, authModeDispatch, hm]
    · intro hlt heq
      rw [← heq] at hlt
      exact lt_irrefl _ hlt

/-- Witness for C1 (amended): a loaded cached portal is reused as-is with
no new request; a pending (unloaded) cached portal is not reused — the
next call constructs the distinct fresh portal instance 1. -/
theorem c1_amended_witness :
    (authenticate_to_portal
        { portal := some { instanceId := 0, loaded := true } } {} (.ok ()) =
      (.resolvedCached { instanceId := 0, loaded := true },
       { portal := some { instanceId := 0, loaded := true } })) ∧
    ((authenticate_to_portal
        { portal := some { instanceId := 0, loaded := false },
          nextInstanceId := 1 }
        { _auth_mode := "anonymous" } (.ok ())).1 =
      .pendingLoad { instanceId := 1, loaded := false } ∧
     ({ instanceId := 1, loaded := false } : Portal) ≠
      { instanceId := 0, loaded := false }) := by
  refine ⟨(c1_amended_no_inflight_dedup _ {} _ rfl).1 rfl, ?_, ?_⟩
  · exact ((c1_amended_no_inflight_dedup _ _ _ rfl).2 rfl (by decide)).1
  · exact ((c1_amended_no_inflight_dedup
      { portal := some { instanceId := 0, loaded := false },
        nextInstanceId := 1 }
      { _auth_mode := "anonymous" } _ rfl).2 rfl (by decide)).2 (by decide)

/-- C5: in token-based mode with no loaded cached portal, if any of the
three required fields (`_portal_url`, `_portal_sharing_rest_url`, the
effective portal token) is empty, `authenticate_to_portal` rejects with
the validation message — leaving the widget state untouched, so no portal
construction-and-load and no token registration is issued — and the
message names all three required fields (so in particular the missing
one). -/
theorem c5_tokenbased_validation (s : WidgetAuthState) (m : AuthModel)
    (hnc : ∀ p, s.portal = some p → p.loaded = false)
    (hmode : jsToLowerCase m._auth_mode = "tokenbased")
    (hmissing : m._portal_url = "" ∨ m._portal_sharing_rest_url = "" ∨
      get_portal_token s m = "") :
    authenticate_to_portal s m (.ok ()) =
      (.rejected (validationRejectMsg s m), s) ∧
    "_portal_url, _portal_sharing_rest_url, and _portal_token ".data <+:
      (validationRejectMsg s m).data := by
  have hbranch : authModeDispatch s m =
      (.rejected (validationRejectMsg s m), s) := by
    rcases hmissing with hmiss | hmiss | hmiss <;>
      simp [authModeDispatch, hmode, hmiss]
  constructor
  · cases hsp : s.portal with
    | none =>
      simp only [authenticate_to_portal, hsp]
      exact hbranch
    | some p =>
      have hl := hnc p hsp
      simp only [authenticate_to_portal, hsp, hl]
      simpa using hbranch
  · refine ⟨("must be specified to authenticate in 'tokenBased' auth mode. " ++
      ("_portal_url = " ++ m._portal_url ++ ", _portal_sharing_rest_url = " ++
        m._portal_sharing_rest_url ++ ", _portal_token = " ++
        portalTokenString s)).data, ?_⟩
    exact (String.data_append _ _).symm

/-- Witness for C5: token-based configuration missing the sharing-REST URL
(the spec's own example) rejects with the validation message and leaves
the state untouched, and the message opens by naming the three fields. -/
theorem c5_witness :
    (authenticate_to_portal {}
        { _auth_mode := "tokenBased", _portal_url := "https://portal.example",
          _portal_token := "tok123" } (.ok ()) =
      (.rejected (validationRejectMsg {}
        { _auth_mode := "tokenBased", _portal_url := "https://portal.example",
          _portal_token := "tok123" }), {}) ∧
    "_portal_url, _portal_sharing_rest_url, and _portal_token ".data <+:
      (validationRejectMsg {}
        { _auth_mode := "tokenBased", _portal_url := "https://portal.example",
          _portal_token := "tok123" }).data) :=
  c5_tokenbased_validation {} _ (fun p hp => Option.noConfusion hp) (by decide)
    (Or.inr (Or.inl rfl))

/-- Counterexample for C6: type-tag matching is not case-tolerant — the
case variant `tilelayer` of the known tag `TileLayer` is rejected as
unsupported instead of being dispatched to the `TileLayer` constructor. -/
theorem c6_counterexample :
    inferNoTypeLayer { type := some "tilelayer", _hashFromPython := "h1" }
      { loadModules := .ok (), inferRenderer := .ok "r",
        featureLayerLoad := .ok () } =
      .error "This layer type is not supported." ∧
    inferNoTypeLayer { type := some "TileLayer", _hashFromPython := "h1" }
      { loadModules := .ok (), inferRenderer := .ok "r",
        featureLayerLoad := .ok () } =
      .ok { kind := .tileLayer, id := "h1" } := by
  decide

/-- C6 (amended): type-tag matching is exact (case-sensitive) but
legacy-name-tolerant — each legacy tag (`ArcGISTiledMapServiceLayer`,
`ArcGISDynamicMapServiceLayer`, `KML`) is dispatched exactly as its current
canonical tag (`TileLayer`, `MapImageLayer`, `KMLLayer`). -/
theorem c6_amended_legacy_tags (d : NoTypeLayer) (ext : ExtCalls) :
    (inferNoTypeLayer { d with type := some "ArcGISTiledMapServiceLayer" } ext =
      inferNoTypeLayer { d with type := some "TileLayer" } ext) ∧
    (inferNoTypeLayer { d with type := some "ArcGISDynamicMapServiceLayer" } ext =
      inferNoTypeLayer { d with type := some "MapImageLayer" } ext) ∧
    (inferNoTypeLayer { d with type := some "KML" } ext =
      inferNoTypeLayer { d with type := some "KMLLayer" } ext) := by
  cases hm : ext.loadModules with
  | error e => simp [inferNoTypeLayer, hm]
  | ok u => cases u; simp [inferNoTypeLayer, hm]

theorem filter_removeFirstById (layers : List MapLayer) (lid : String) :
    (removeFirstById layers lid).filter (fun l => !(l.id == lid)) =
      layers.filter (fun l => !(l.id == lid)) := by
  induction layers with
  | nil => rfl
  | cons x rest ih =>
    by_cases hx : (x.id == lid) = true
    · simp [removeFirstById, hx, List.filter]
    · have hx' : (x.id == lid) = false := by simpa using hx
      simp [removeFirstById, hx', List.filter, ih]

theorem removeLayerLoop_eq_filter_aux (n : Nat) :
    ∀ (layers : List MapLayer) (lid : String), layers.length ≤ n →
      removeLayerLoop layers lid =
        layers.filter (fun l => !(l.id == lid)) := by
  induction n with
  | zero =>
    intro layers lid hlen
    have hnil : layers = [] :=
      List.eq_nil_of_length_eq_zero (Nat.le_zero.mp hlen)
    subst hnil
    rw [removeLayerLoop]
    rfl
  | succ n ih =>
    intro layers lid hlen
    rw [removeLayerLoop]
    split
    · next hfind =>
        symm
        rw [List.filter_eq_self]
        intro a ha
        simpa using List.find?_eq_none.mp hfind a ha
    · next l hfind =>
        rw [ih (removeFirstById layers lid) lid (by
          have := length_removeFirstById_lt layers lid l hfind
          omega)]
        exact filter_removeFirstById layers lid

theorem removeLayerLoop_eq_filter (layers : List MapLayer) (lid : String) :
    removeLayerLoop layers lid = layers.filter (fun l => !(l.id == lid)) :=
  removeLayerLoop_eq_filter_aux layers.length layers lid (Nat.le_refl _)

theorem layers_to_remove_changed_subset (ids : List String) :
    ∀ layers : List MapLayer, ∀ a ∈ layers_to_remove_changed layers ids,
      a ∈ layers := by
  induction ids with
  | nil => exact fun layers a ha => ha
  | cons i rest ih =>
    intro layers a ha
    rw [layers_to_remove_changed, List.foldl_cons] at ha
    have hrest : a ∈ removeLayerLoop layers i := ih (removeLayerLoop layers i) a ha
    rw [removeLayerLoop_eq_filter] at hrest
    exact List.mem_of_mem_filter hrest

/-- C10: after `layers_to_remove_changed` runs, the map contains no layer
whose id is listed in `_layers_to_remove` — the do-while loop removes
every layer bearing each listed id (duplicates included) and later ids'
loops never re-introduce one. -/
theorem c10_remove_layers_complete (layers : List MapLayer)
    (ids : List String) (lid : String) (l : MapLayer)
    (hid : lid ∈ ids) (hl : l ∈ layers_to_remove_changed layers ids) :
    l.id ≠ lid := by
  induction ids generalizing layers with
  | nil => exact absurd hid (List.not_mem_nil lid)
  | cons i rest ih =>
    rw [layers_to_remove_changed, List.foldl_cons] at hl
    rcases List.mem_cons.mp hid with heq | hmem
    · subst heq
      have hin : l ∈ removeLayerLoop layers lid :=
        layers_to_remove_changed_subset rest (removeLayerLoop layers lid) l hl
      rw [removeLayerLoop_eq_filter] at hin
      have := List.of_mem_filter hin
      simpa using this
    · exact ih (removeLayerLoop layers i) hmem hl

/-- Witness for C10: removing id `a` from a map holding two distinct
layers with id `a` around one with id `b` leaves exactly the `b` layer,
whose id is indeed not `a`. -/
theorem c10_witness : ({ id := "b", tag := 1 } : MapLayer).id ≠ "a" :=
  c10_remove_layers_complete
    [{ id := "a", tag := 0 }, { id := "b", tag := 1 }, { id := "a", tag := 2 }]
    ["a"] "a" { id := "b", tag := 1 } (by decide)
    (by
      rw [layers_to_remove_changed, List.foldl_cons, List.foldl_nil,
        removeLayerLoop_eq_filter]
      decide)

theorem tryRemoveLoop_eq_aux (n : Nat) :
    ∀ (toRemove : List String) (i : Nat) (items : List ImgOverlay),
      items.length - i ≤ n →
      tryRemoveLoop toRemove i items =
        items.take i ++ tryRemoveStruct toRemove (items.drop i) := by
  induction n with
  | zero =>
    intro toRemove i items hlen
    rw [tryRemoveLoop, dif_neg (by omega : ¬ i < items.length),
      List.drop_eq_nil_of_le (by omega), List.take_of_length_le (by omega)]
    simp [tryRemoveStruct]
  | succ n ih =>
    intro toRemove i items hlen
    by_cases hi : i < items.length
    · have htl : (items.take i).length = i := by
        rw [List.length_take]
        omega
      have e1 : (items.take i ++ items.drop (i + 1)).take (i + 1) =
          items.take i ++ (items.drop (i + 1)).take 1 := by
        rw [List.take_append_eq_append_take, htl, List.take_take,
          Nat.min_eq_right (by omega), Nat.add_sub_cancel_left]
      have e2 : (items.take i ++ items.drop (i + 1)).drop (i + 1) =
          items.drop (i + 2) := by
        rw [List.drop_append_eq_append_drop, htl,
          List.drop_eq_nil_of_le
            (show (items.take i).length ≤ i + 1 by rw [htl]; omega),
          Nat.add_sub_cancel_left, List.nil_append, List.drop_drop]
      by_cases hmatch : (items.get ⟨i, hi⟩).id ∈ toRemove
      · have hm' : (items[i]).id ∈ toRemove := by
          simpa [List.get_eq_getElem] using hmatch
        rw [tryRemoveLoop, dif_pos hi, if_pos hmatch,
          ih toRemove (i + 1) (items.eraseIdx i)
            (by rw [List.length_eraseIdx_of_lt hi]; omega),
          List.eraseIdx_eq_take_drop_succ, e1, e2,
          List.drop_eq_getElem_cons hi]
        cases hd : items.drop (i + 1) with
        | nil =>
          have hl2 : items.drop (i + 2) = [] := by
            have h1 : List.drop 1 (items.drop (i + 1)) = [] := by
              rw [hd]
              rfl
            rw [List.drop_drop] at h1
            exact h1
          rw [hl2]
          simp only [tryRemoveStruct]
          rw [if_pos hm']
          simp
        | cons p rest2 =>
          have hl2 : items.drop (i + 2) = rest2 := by
            have h1 : List.drop 1 (items.drop (i + 1)) = rest2 := by
              rw [hd]
              rfl
            rw [List.drop_drop] at h1
            exact h1
          rw [hl2]
          simp only [tryRemoveStruct]
          rw [if_pos hm']
          simp
      · have hm' : ¬ (items[i]).id ∈ toRemove := by
          simpa [List.get_eq_getElem] using hmatch
        have ht1 : items.take (i + 1) = items.take i ++ [items[i]] := by
          rw [List.take_succ, List.getElem?_eq_getElem hi]
          rfl
        rw [tryRemoveLoop, dif_pos hi, if_neg hmatch,
          ih toRemove (i + 1) items (by omega),
          List.drop_eq_getElem_cons hi, ht1]
        cases hd : items.drop (i + 1) with
        | nil =>
          simp only [tryRemoveStruct]
          rw [if_neg hm', List.append_nil]
        | cons p rest2 =>
          simp only [tryRemoveStruct]
          rw [if_neg hm', List.append_assoc]
          rfl
    · rw [tryRemoveLoop, dif_neg hi, List.drop_eq_nil_of_le (by omega),
        List.take_of_length_le (by omega)]
      simp [tryRemoveStruct]

theorem tryRemoveImageOverlays_eq_struct (toRemove : List String)
    (items : List ImgOverlay) :
    tryRemoveImageOverlays toRemove items = tryRemoveStruct toRemove items := by
  rw [tryRemoveImageOverlays,
    tryRemoveLoop_eq_aux items.length toRemove 0 items (by omega)]
  rfl

/-- Counterexample for C9: two adjacent overlays both bearing a listed id
— the pass removes the first, `removeAt` shifts the second into the
examined slot while the index advances past it, and the call returns with
a matching overlay still in the collection. -/
theorem c9_counterexample :
    tryRemoveImageOverlays ["o1"]
      [{ id := "o1", tag := 0 }, { id := "o1", tag := 1 }] =
      [{ id := "o1", tag := 1 }] ∧
    "o1" ∈ (["o1"] : List String) := by
  refine ⟨?_, by decide⟩
  rw [tryRemoveImageOverlays_eq_struct]
  decide

theorem hasAdjacentMatches_tail (t : List String) (a : ImgOverlay)
    (rest : List ImgOverlay)
    (h : hasAdjacentMatches t (a :: rest) = false) :
    hasAdjacentMatches t rest = false := by
  cases rest with
  | nil => rfl
  | cons b rest2 =>
    rw [hasAdjacentMatches] at h
    exact (Bool.or_eq_false_iff.mp h).2

theorem tryRemoveStruct_no_match_aux (n : Nat) :
    ∀ (toRemove : List String) (items : List ImgOverlay),
      items.length ≤ n →
      hasAdjacentMatches toRemove items = false →
      ∀ o ∈ tryRemoveStruct toRemove items, o.id ∉ toRemove := by
  induction n with
  | zero =>
    intro toRemove items hlen _ o ho
    have hnil : items = [] :=
      List.eq_nil_of_length_eq_zero (Nat.le_zero.mp hlen)
    subst hnil
    exact absurd ho (by simp [tryRemoveStruct])
  | succ n ih =>
    intro toRemove items hlen hadj o ho
    cases items with
    | nil => exact absurd ho (by simp [tryRemoveStruct])
    | cons a rest =>
      by_cases ha : a.id ∈ toRemove
      · cases rest with
        | nil =>
          rw [tryRemoveStruct, if_pos ha] at ho
          exact absurd ho (List.not_mem_nil o)
        | cons p rest2 =>
          rw [tryRemoveStruct, if_pos ha] at ho
          have hpair := Bool.or_eq_false_iff.mp
            (by simpa [hasAdjacentMatches] using hadj :
              ((decide (a.id ∈ toRemove) && decide (p.id ∈ toRemove)) ||
                hasAdjacentMatches toRemove (p :: rest2)) = false)
          have hp : p.id ∉ toRemove := by
            have h1 := hpair.1
            rw [Bool.and_eq_false_iff] at h1
            rcases h1 with h1 | h1
            · exact absurd (by simpa using h1) (by simp [ha])
            · simpa using h1
          rcases List.mem_cons.mp ho with rfl | ho2
          · exact hp
          · exact ih toRemove rest2 (by simp at hlen; omega)
              (hasAdjacentMatches_tail toRemove p rest2 (hpair.2)) o ho2
      · cases rest with
        | nil =>
          rw [tryRemoveStruct, if_neg ha] at ho
          rcases List.mem_cons.mp ho with rfl | ho2
          · exact ha
          · exact absurd ho2 (List.not_mem_nil o)
        | cons p rest2 =>
          rw [tryRemoveStruct, if_neg ha] at ho
          rcases List.mem_cons.mp ho with rfl | ho2
          · exact ha
          · exact ih toRemove (p :: rest2) (by simp at hlen ⊢; omega)
              (hasAdjacentMatches_tail toRemove a (p :: rest2) hadj) o ho2

/-- C9 (amended): `tryRemoveImageOverlays` removes every matching overlay
provided no two matching overlays are adjacent — the single forward pass
skips the element shifted into a removed slot, so only adjacency among
matches defeats it.  Under that proviso the returned collection contains
no overlay whose id is in the passed list. -/
theorem c9_amended_remove_overlays (toRemove : List String)
    (items : List ImgOverlay) (o : ImgOverlay)
    (hadj : hasAdjacentMatches toRemove items = false)
    (ho : o ∈ tryRemoveImageOverlays toRemove items) :
    o.id ∉ toRemove := by
  rw [tryRemoveImageOverlays_eq_struct] at ho
  exact tryRemoveStruct_no_match_aux items.length toRemove items
    (Nat.le_refl _) hadj o ho

/-- Witness for C9 (amended): removing id `x` from non-adjacent matches
`[x, y, x]` leaves exactly the `y` overlay, whose id is not listed. -/
theorem c9_amended_witness :
    ({ id := "y", tag := 1 } : ImgOverlay).id ∉ (["x"] : List String) :=
  c9_amended_remove_overlays ["x"]
    [{ id := "x", tag := 0 }, { id := "y", tag := 1 },
     { id := "x", tag := 2 }]
    { id := "y", tag := 1 } (by decide)
    (by rw [tryRemoveImageOverlays_eq_struct]; decide)

end ArcGISMapWidget
